import Mathlib

/-!
Shallow embedding of the Cannoli runtime value model (`src/value.rs` of
cannolib): the tagged-union `Value` type together with its truthiness,
equality, ordering, containment, indexing, call, attribute-access and
formatting operations. Panicking Rust code is embedded as `Except RtError`;
the shared mutable payloads (`Rc<RefCell<ListType>>` lists and
`Rc<RefCell<HashMap>>` object tables) are embedded as addresses into an
explicit heap `State`. The external collaborators (the numeric tower,
the list/tuple containers) are not part of the source file and are
modelled from the specification where noted.
-/

namespace Cannolib

/-- Runtime failure of an operation: `panicked msg` embeds Rust `panic!` with
the given message, `unimplemented` embeds the `unimplemented!()` macro,
`unreached` embeds `unreachable!()`, and `outOfFuel` is an artifact of the
embedding for recursion through the heap (it can only arise when the fuel
supplied to a heap-recursive operation is exhausted, never on the
non-recursive paths). -/
inductive RtError where
  | panicked (msg : String)
  | unimplemented
  | unreached
  | outOfFuel
deriving DecidableEq, Repr

/-- Modelled from the spec: the numeric tower (external collaborator, §6),
holding integer and floating values. Floating values are modelled as exact
rationals, which is faithful for the operations the claims use (negation,
equality, ordering, the nonzero truthiness rule). -/
inductive NumericType where
  | Integer (i : Int)
  | Float (q : Rat)
deriving DecidableEq, Repr

/-- Modelled from the spec: promotion of a tower value to a common exact
domain, used to express the tower's promotion-aware comparisons. -/
def NumericType.toRat : NumericType → Rat
  | .Integer i => (i : Rat)
  | .Float q => q

/-- Modelled from the spec: the tower's nonzero boolean-coercion rule
(integer 0 and float 0.0 are false, every other number is true). -/
def NumericType.to_bool : NumericType → Bool
  | .Integer i => i != 0
  | .Float q => q != 0

/-- Modelled from the spec: the tower's unary negation. -/
def NumericType.neg : NumericType → NumericType
  | .Integer i => .Integer (-i)
  | .Float q => .Float (-q)

/-- Modelled from the spec: the tower's promotion-aware equality. -/
def NumericType.beq (a b : NumericType) : Bool := decide (a.toRat = b.toRat)

/-- Modelled from the spec: the tower's strict-less comparison. -/
def NumericType.ltb (a b : NumericType) : Bool := decide (a.toRat < b.toRat)

/-- Modelled from the spec: the tower's less-or-equal comparison. -/
def NumericType.leb (a b : NumericType) : Bool := decide (a.toRat ≤ b.toRat)

/-- Modelled from the spec: the tower's strict-greater comparison. -/
def NumericType.gtb (a b : NumericType) : Bool := decide (b.toRat < a.toRat)

/-- Modelled from the spec: the tower's greater-or-equal comparison. -/
def NumericType.geb (a b : NumericType) : Bool := decide (b.toRat ≤ a.toRat)

/-- Modelled from the spec: the tower's textual rendering. -/
def NumericType.render : NumericType → String
  | .Integer i => toString i
  | .Float q => toString q

/-- The `Value` enum of `src/value.rs`: a closed tagged union. The shared
payloads are embedded as heap addresses: `List` carries the address of a
shared mutable element sequence and `Object` the address of a shared mutable
attribute table (the `Rc<RefCell<..>>` cells). A `Function` payload (a Rust
closure) is defunctionalised to an identifier resolved by the function
environment supplied to `Value.call`. `Tuple` and `Class` payloads are held
by value, as in the source. -/
inductive Value where
  | Number (n : NumericType)
  | Str (s : String)
  | Bool (b : Bool)
  | List (addr : Nat)
  | Tuple (elems : List Value)
  | Function (fid : Nat)
  | Class (tbl : List (String × Value))
  | Object (addr : Nat)
  | TextIOWrapper (handle : Nat)
  | None

/-- A name-to-value table (the `HashMap<String, Value>` of the source),
embedded as an association list with first-match lookup (hash tables have
at most one entry per key). -/
abbrev HMap := List (String × Value)

/-- `HashMap::get`: first-match lookup in an association table. -/
def hmGet : HMap → String → Option Value
  | [], _ => Option.none
  | (k, v) :: rest, key => if k = key then some v else hmGet rest key

/-- The heap backing the shared mutable payloads: `lists` maps a list
address to the element sequence of the `ListType` cell stored there, `objs`
maps an object address to its attribute table, and `nextAddr` is the next
fresh address (every live address was allocated below it). -/
structure State where
  lists : Nat → List Value
  objs : Nat → HMap
  nextAddr : Nat

/-- Allocation of a fresh object cell (`Rc::new(RefCell::new(tbl))`):
returns the fresh address and the extended heap. -/
def State.allocObj (st : State) (tbl : HMap) : Nat × State :=
  (st.nextAddr,
   { st with
     objs := fun a => if a = st.nextAddr then tbl else st.objs a,
     nextAddr := st.nextAddr + 1 })

/-- Allocation of a fresh list cell: returns the fresh address and the
extended heap. -/
def State.allocList (st : State) (l : List Value) : Nat × State :=
  (st.nextAddr,
   { st with
     lists := fun a => if a = st.nextAddr then l else st.lists a,
     nextAddr := st.nextAddr + 1 })

/-- The semantics of the defunctionalised `Function` payloads: an
environment mapping a function identifier to the closure's behaviour on a
positional-argument list, a keyword table and the current heap. -/
abbrev FEnv := Nat → List Value → HMap → State → Except RtError (Value × State)

/-- Result type of a boolean-valued fallible operation. -/
abbrev RBool := Except RtError Bool

/-- Result type of a value-valued fallible operation. -/
abbrev RValue := Except RtError Value

/-- Result type of a fallible operation returning a value and the heap. -/
abbrev RValueS := Except RtError (Value × State)

/-- Result type of a fallible operation returning a boolean and the heap. -/
abbrev RBoolS := Except RtError (Bool × State)

/-- Result type of a fallible operation returning a sequence and the heap. -/
abbrev RSeqS := Except RtError (List Value × State)

/-- A positional-argument sequence. -/
abbrev Args := List Value

/-- `Value::to_bool` of `src/value.rs`: Number by the tower's nonzero rule,
Str by non-emptiness, Bool identity, List and Tuple by the container's
non-empty rule (the container rule is modelled from the spec), Function,
Class and Object always true, None always false; the remaining variant
(`TextIOWrapper`) falls into the `unimplemented!()` catch-all. -/
def Value.to_bool (st : State) : Value → RBool
  | .Number n => .ok n.to_bool
  | .Str s => .ok (!s.isEmpty)
  | .Bool b => .ok b
  | .List a => .ok (!(st.lists a).isEmpty)
  | .Tuple t => .ok (!t.isEmpty)
  | .Function _ => .ok true
  | .Class _ => .ok true
  | .Object _ => .ok true
  | .None => .ok false
  | .TextIOWrapper _ => .error .unimplemented

mutual
/-- `PartialEq::eq for Value` of `src/value.rs`: variant-aligned structural
equality. Same-variant pairs delegate to the payload equality (tower
equality for Number, sequence equality for Str, identity for Bool,
element-wise container equality through the shared cell for List, element
wise for Tuple, true for None-None). A pair whose left operand is Number,
Str, Bool, List, Tuple or None and whose right operand is of another
variant is false; every other pair hits `unimplemented!()`. `fuel` bounds
recursion through the heap (list cells can be cyclic). -/
def Value.eq (st : State) (fuel : Nat) (v1 v2 : Value) : RBool :=
  match v1, v2 with
  | .Number a, .Number b => .ok (NumericType.beq a b)
  | .Number _, _ => .ok false
  | .Str a, .Str b => .ok (a == b)
  | .Str _, _ => .ok false
  | .Bool a, .Bool b => .ok (a == b)
  | .Bool _, _ => .ok false
  | .List a1, .List a2 =>
      match fuel with
      | 0 => .error .outOfFuel
      | fuel + 1 => ListType.eqB st fuel (st.lists a1) (st.lists a2)
  | .List _, _ => .ok false
  | .Tuple t1, .Tuple t2 =>
      match fuel with
      | 0 => .error .outOfFuel
      | fuel + 1 => ListType.eqB st fuel t1 t2
  | .Tuple _, _ => .ok false
  | .None, .None => .ok true
  | .None, _ => .ok false
  | _, _ => .error .unimplemented
termination_by (fuel, 0, 0)

/-- Element-wise walk over two sequences of equal length, comparing with
`Value.eq`; stops at the first element pair that is unequal or whose
comparison fails. -/
def listEqWalk (st : State) (fuel : Nat) (l1 l2 : List Value) :
    Except RtError Bool :=
  match l1, l2 with
  | [], _ => .ok true
  | _, [] => .ok true
  | x :: xs, y :: ys =>
      match Value.eq st fuel x y with
      | .ok true => listEqWalk st fuel xs ys
      | .ok false => .ok false
      | .error e => .error e
termination_by (fuel, 1, l1.length)

/-- Modelled from the spec: the structural equality of the sequence
containers (external collaborators, §6): equal length and element-wise
equal contents, elements compared by the value equality. -/
def ListType.eqB (st : State) (fuel : Nat) (l1 l2 : List Value) :
    Except RtError Bool :=
  if l1.length = l2.length then listEqWalk st fuel l1 l2 else .ok false
termination_by (fuel, 2, 0)
end

/-- `PartialEq::ne for Value` of `src/value.rs`: the hand-written
inequality. Same-variant pairs delegate to the payload inequality (the
negation of the payload equality), a pair whose left operand is Number,
Str, Bool, List, Tuple or None and whose right operand is of another
variant is true, and every other pair hits `unimplemented!()`. -/
def Value.ne (st : State) (fuel : Nat) (v1 v2 : Value) : RBool :=
  match v1, v2 with
  | .Number a, .Number b => .ok (!NumericType.beq a b)
  | .Number _, _ => .ok true
  | .Str a, .Str b => .ok (!(a == b))
  | .Str _, _ => .ok true
  | .Bool a, .Bool b => .ok (!(a == b))
  | .Bool _, _ => .ok true
  | .List a1, .List a2 =>
      match fuel with
      | 0 => .error .outOfFuel
      | fuel + 1 =>
          Except.map (fun b => !b) (ListType.eqB st fuel (st.lists a1) (st.lists a2))
  | .List _, _ => .ok true
  | .Tuple t1, .Tuple t2 =>
      match fuel with
      | 0 => .error .outOfFuel
      | fuel + 1 => Except.map (fun b => !b) (ListType.eqB st fuel t1 t2)
  | .Tuple _, _ => .ok true
  | .None, .None => .ok false
  | .None, _ => .ok true
  | _, _ => .error .unimplemented

/-- Modelled from the spec: lexicographic strict order on strings (the host
string ordering the source delegates to). -/
def strLt (a b : String) : Bool := decide (a < b)

/-- `PartialOrd::lt for Value` of `src/value.rs`: defined for Number-Number,
Str-Str and Bool-Bool pairs by delegation to the payload order; every other
pair panics. -/
def Value.lt (v1 v2 : Value) : RBool :=
  match v1, v2 with
  | .Number a, .Number b => .ok (NumericType.ltb a b)
  | .Str a, .Str b => .ok (strLt a b)
  | .Bool a, .Bool b => .ok (!a && b)
  | _, _ => .error (.panicked "operation '<' not supported between these values")

/-- `PartialOrd::le for Value` of `src/value.rs`. -/
def Value.le (v1 v2 : Value) : RBool :=
  match v1, v2 with
  | .Number a, .Number b => .ok (NumericType.leb a b)
  | .Str a, .Str b => .ok (!strLt b a)
  | .Bool a, .Bool b => .ok (!a || b)
  | _, _ => .error (.panicked "operation '<=' not supported between these values")

/-- `PartialOrd::gt for Value` of `src/value.rs`. -/
def Value.gt (v1 v2 : Value) : RBool :=
  match v1, v2 with
  | .Number a, .Number b => .ok (NumericType.gtb a b)
  | .Str a, .Str b => .ok (strLt b a)
  | .Bool a, .Bool b => .ok (a && !b)
  | _, _ => .error (.panicked "operation '>' not supported between these values")

/-- `PartialOrd::ge for Value` of `src/value.rs`. -/
def Value.ge (v1 v2 : Value) : RBool :=
  match v1, v2 with
  | .Number a, .Number b => .ok (NumericType.geb a b)
  | .Str a, .Str b => .ok (!strLt a b)
  | .Bool a, .Bool b => .ok (a || !b)
  | _, _ => .error (.panicked "operation '>=' not supported between these values")

/-- `ops::Neg::neg for Value` of `src/value.rs`: tower negation on a Number,
coercion of a Bool to the integer 1/0 followed by integer negation (the
`-(val as i32)` of the source), and a panic on every other variant. -/
def Value.neg : Value → RValue
  | .Number n => .ok (.Number n.neg)
  | .Bool b => .ok (.Number (.Integer (-(if b then (1 : Int) else 0))))
  | _ => .error (.panicked "bad operand type for unary -")

/-- Modelled from the spec: substring search of the host string type
(`str::contains`), used for the Str-in-Str containment test. -/
def strContains (s sub : String) : Bool := decide (sub.toList <:+: s.toList)

/-- Modelled from the spec: the sequence containers' membership test
(`Vec::contains`): some element of the sequence compares equal to the
probe, the element on the left of the comparison. -/
def listContains (st : State) (fuel : Nat) (x : Value) : List Value → RBool
  | [] => .ok false
  | y :: ys =>
      match Value.eq st fuel y x with
      | .ok true => .ok true
      | .ok false => listContains st fuel x ys
      | .error e => .error e

/-- `Value::contained_in` of `src/value.rs` (the `in` operator): membership
in a List through the shared cell, membership in a Tuple, substring search
for a Str right operand (panicking when the left operand is not a Str), and
a panic on every other right operand. The heap is threaded through
unchanged, as the source method only reads it. -/
def Value.contained_in (x iterable : Value) (fuel : Nat) (st : State) :
    RBoolS :=
  match iterable with
  | .List a => Except.map (fun b => (b, st)) (listContains st fuel x (st.lists a))
  | .Tuple t => Except.map (fun b => (b, st)) (listContains st fuel x t)
  | .Str s =>
      match x with
      | .Str sub => .ok (strContains s sub, st)
      | _ => .error (.panicked "in '<string>' string required as left operand")
  | _ => .error (.panicked "value is not iterable")

/-- `Value::not_contained_in` of `src/value.rs` (the `not in` operator):
the same dispatch as `contained_in` with each containment result negated
in place, as written in the source. -/
def Value.not_contained_in (x iterable : Value) (fuel : Nat) (st : State) :
    RBoolS :=
  match iterable with
  | .List a =>
      Except.map (fun b => (!b, st)) (listContains st fuel x (st.lists a))
  | .Tuple t => Except.map (fun b => (!b, st)) (listContains st fuel x t)
  | .Str s =>
      match x with
      | .Str sub => .ok (!strContains s sub, st)
      | _ => .error (.panicked "in '<string>' string required as left operand")
  | _ => .error (.panicked "value is not iterable")

/-- Modelled from the spec: the sequence containers' indexed lookup, with
negative indices counting from the end; the index must be a tower integer. -/
def seqIndex (l : List Value) (idx : Value) : RValue :=
  match idx with
  | .Number (.Integer i) =>
      let j : Int := if i < 0 then (l.length : Int) + i else i
      if j < 0 then .error (.panicked "index out of range")
      else
        match l.get? j.toNat with
        | some v => .ok v
        | Option.none => .error (.panicked "index out of range")
  | _ => .error (.panicked "indices must be integers")

/-- `Value::index` of `src/value.rs`: delegation to the contained sequence
for a List (through the shared cell) or a Tuple, and the
"value not subscriptable" panic on every other variant. The heap is
threaded through unchanged, as the source method only reads it. -/
def Value.index (v idx : Value) (st : State) : RValueS :=
  match v with
  | .List a => Except.map (fun r => (r, st)) (seqIndex (st.lists a) idx)
  | .Tuple t => Except.map (fun r => (r, st)) (seqIndex t idx)
  | _ => .error (.panicked "value not subscriptable")

/-- Modelled from the spec: resolution of an optional slice bound to an
absolute position, with negative bounds counting from the end, clamped to
the sequence; the bound must be a tower integer when present. -/
def sliceBound (len : Nat) (dflt : Int) : Option Value → Except RtError Int
  | Option.none => .ok dflt
  | some (.Number (.Integer i)) =>
      let j : Int := if i < 0 then (len : Int) + i else i
      .ok (max 0 (min j (len : Int)))
  | some _ => .error (.panicked "slice indices must be integers")

/-- Every `step`-th element of a sequence, starting from its head. -/
def everyNth (l : List Value) (step : Nat) : List Value :=
  (l.enum.filter (fun p => p.1 % step = 0)).map (fun p => p.2)

/-- Modelled from the spec: the sequence containers' slicing with optional
lower/upper/step bounds. -/
def seqSlice (l : List Value) (lower upper step : Option Value) :
    Except RtError (List Value) :=
  match sliceBound l.length 0 lower,
        sliceBound l.length (l.length : Int) upper with
  | .ok lo, .ok hi =>
      match step with
      | Option.none => .ok (everyNth ((l.take hi.toNat).drop lo.toNat) 1)
      | some (.Number (.Integer k)) =>
          if k ≤ 0 then .error (.panicked "slice step must be positive")
          else .ok (everyNth ((l.take hi.toNat).drop lo.toNat) k.toNat)
      | some _ => .error (.panicked "slice indices must be integers")
  | .error e, _ => .error e
  | _, .error e => .error e

/-- `Value::slice` of `src/value.rs`: delegation to the contained sequence
for a List or a Tuple, and the "value not subscriptable" panic
otherwise. The List result is a freshly allocated list cell (the container
builds a new sequence), so the heap gains a fresh cell but no live cell is
touched; the Tuple result is held by value. -/
def Value.slice (v : Value) (lower upper step : Option Value) (st : State) :
    RValueS :=
  match v with
  | .List a =>
      match seqSlice (st.lists a) lower upper step with
      | .ok r =>
          let p := st.allocList r
          .ok (.List p.1, p.2)
      | .error e => .error e
  | .Tuple t =>
      Except.map (fun r => (.Tuple r, st)) (seqSlice t lower upper step)
  | _ => .error (.panicked "value not subscriptable")

/-- `Value::clone_seq` of `src/value.rs`: a fresh snapshot of a List's or
Tuple's current contents, used to drive for-loop iteration; the
"value not iterable" panic on every other variant. The heap is threaded
through unchanged, as the source method only reads it. -/
def Value.clone_seq (v : Value) (st : State) : RSeqS :=
  match v with
  | .List a => .ok (st.lists a, st)
  | .Tuple t => .ok (t, st)
  | _ => .error (.panicked "value not iterable")

/-- `Value::call` of `src/value.rs`: a Function invokes its closure (here:
the function environment) on the arguments, the keyword table and the
heap. A Class allocates a new Object whose attribute table is a copy of the
class's member table; when the member table holds an `__init__` entry that
entry is itself called with the new Object prepended to the positional
arguments and the original keyword table, its return value discarded; the
new Object is returned either way. Every other variant hits
`unimplemented!()`. -/
def Value.call (fenv : FEnv) :
    Value → Args → HMap → State → RValueS
  | .Function fid, args, kwargs, st => fenv fid args kwargs st
  | .Class tbl, args, kwargs, st =>
      let p := st.allocObj tbl
      let obj := Value.Object p.1
      match h : hmGet tbl "__init__" with
      | some v =>
          Except.map (fun q => (obj, q.2))
            (Value.call fenv v (obj :: args) kwargs p.2)
      | Option.none => .ok (obj, p.2)
  | _, _, _, _ => .error .unimplemented
termination_by v _ _ _ => sizeOf v
decreasing_by
  simp only [Value.Class.sizeOf_spec]
  have hlt : ∀ l : HMap, hmGet l "__init__" = some v → sizeOf v < sizeOf l := by
    intro l
    induction l with
    | nil => intro hh; simp [hmGet] at hh
    | cons p rest ih =>
        obtain ⟨k, w⟩ := p
        intro hh
        rw [hmGet] at hh
        by_cases hk : k = "__init__"
        · subst hk
          rw [if_pos rfl] at hh
          simp only [Option.some.injEq] at hh
          subst hh
          simp only [List.cons.sizeOf_spec, Prod.mk.sizeOf_spec]
          omega
        · rw [if_neg hk] at hh
          have := ih hh
          simp only [List.cons.sizeOf_spec]
          omega
  have := hlt tbl h
  omega

/-- `Value::get_attr` of `src/value.rs`: an Object looks the attribute up
in its shared mutable attribute table, a Class in its immutable member
table; a present entry is returned (cloned), a missing entry is a panic
whose message names the missing attribute; every other variant hits
`unreachable!()`. -/
def Value.get_attr (st : State) : Value → String → RValue
  | .Object a, attr =>
      match hmGet (st.objs a) attr with
      | some v => .ok v
      | Option.none =>
          .error (.panicked ("object has no attribute '" ++ attr ++ "'"))
  | .Class tbl, attr =>
      match hmGet tbl attr with
      | some v => .ok v
      | Option.none =>
          .error (.panicked ("class has no attribute '" ++ attr ++ "'"))
  | _, _ => .error .unreached

/-- The implementation-defined identity tokens of the formatting layer: the
`{:p}` pointer renderings of an Object's shared table cell and of a Class's
member table. Kept abstract, as the source renders host addresses. -/
structure PtrRender where
  objPtr : Nat → String
  classPtr : HMap → String

mutual
/-- `fmt::Display for Value` of `src/value.rs`: Number and Str render
through the payload's own textual form, Bool as the literal tokens `True`
and `False`, List and Tuple by delegation to the container's rendering
(modelled from the spec as the bracketed, comma-separated rendering of the
elements), Function as an opaque placeholder, Object and Class as an
angle-bracketed form naming the mandatory `__name__` attribute (rendered
through Display) plus the identity token, panicking when `__name__` is
missing, TextIOWrapper as an opaque placeholder and None as the literal
token `None`. `fuel` bounds recursion through the heap. -/
def fmtValue (pr : PtrRender) (st : State) (fuel : Nat) (v : Value) :
    Except RtError String :=
  match v with
  | .Number n => .ok n.render
  | .Str s => .ok s
  | .Bool b => .ok (if b then "True" else "False")
  | .List a =>
      match fuel with
      | 0 => .error .outOfFuel
      | fuel + 1 =>
          Except.map (fun body => "[" ++ body ++ "]")
            (fmtSeq pr st fuel (st.lists a))
  | .Tuple t =>
      match fuel with
      | 0 => .error .outOfFuel
      | fuel + 1 =>
          Except.map (fun body => "(" ++ body ++ ")") (fmtSeq pr st fuel t)
  | .Function _ => .ok "<cannoli function>"
  | .Object a =>
      match hmGet (st.objs a) "__name__" with
      | some nv =>
          match fuel with
          | 0 => .error .outOfFuel
          | fuel + 1 =>
              Except.map
                (fun nm => "<'" ++ nm ++ "' object at " ++ pr.objPtr a ++ ">")
                (fmtValue pr st fuel nv)
      | Option.none => .error (.panicked "missing '__name__' attribute")
  | .Class tbl =>
      match hmGet tbl "__name__" with
      | some nv =>
          match fuel with
          | 0 => .error .outOfFuel
          | fuel + 1 =>
              Except.map
                (fun nm => "<'" ++ nm ++ "' class at " ++ pr.classPtr tbl ++ ">")
                (fmtValue pr st fuel nv)
      | Option.none => .error (.panicked "missing '__name__' attribute")
  | .TextIOWrapper _ => .ok "TextIOWrapper"
  | .None => .ok "None"
termination_by (fuel, 0, 0)

/-- Modelled from the spec: the containers' rendering of their element
sequence, each element rendered by the value Display. -/
def fmtSeq (pr : PtrRender) (st : State) (fuel : Nat) (l : List Value) :
    Except RtError String :=
  match l with
  | [] => .ok ""
  | [x] => fmtValue pr st fuel x
  | x :: xs =>
      match fmtValue pr st fuel x with
      | .ok hd => Except.map (fun tl => hd ++ ", " ++ tl) (fmtSeq pr st fuel xs)
      | .error e => .error e
termination_by (fuel, 1, l.length)
end

/-- `fmt::Debug for Value` of `src/value.rs`: the debug rendering. Each arm
mirrors the source Debug impl; the inner renderings (the `__name__` value
and the containers' element sequences) go through Display, exactly as the
source's `{}` format specifiers do. -/
def fmtValueDebug (pr : PtrRender) (st : State) (fuel : Nat) (v : Value) :
    Except RtError String :=
  match v with
  | .Number n => .ok n.render
  | .Str s => .ok s
  | .Bool b => .ok (if b then "True" else "False")
  | .List a =>
      match fuel with
      | 0 => .error .outOfFuel
      | fuel + 1 =>
          Except.map (fun body => "[" ++ body ++ "]")
            (fmtSeq pr st fuel (st.lists a))
  | .Tuple t =>
      match fuel with
      | 0 => .error .outOfFuel
      | fuel + 1 =>
          Except.map (fun body => "(" ++ body ++ ")") (fmtSeq pr st fuel t)
  | .Function _ => .ok "<cannoli function>"
  | .Object a =>
      match hmGet (st.objs a) "__name__" with
      | some nv =>
          match fuel with
          | 0 => .error .outOfFuel
          | fuel + 1 =>
              Except.map
                (fun nm => "<'" ++ nm ++ "' object at " ++ pr.objPtr a ++ ">")
                (fmtValue pr st fuel nv)
      | Option.none => .error (.panicked "missing '__name__' attribute")
  | .Class tbl =>
      match hmGet tbl "__name__" with
      | some nv =>
          match fuel with
          | 0 => .error .outOfFuel
          | fuel + 1 =>
              Except.map
                (fun nm => "<'" ++ nm ++ "' class at " ++ pr.classPtr tbl ++ ">")
                (fmtValue pr st fuel nv)
      | Option.none => .error (.panicked "missing '__name__' attribute")
  | .TextIOWrapper _ => .ok "TextIOWrapper"
  | .None => .ok "None"

/-- The variants on whose left operand the hand-written `eq`/`ne` have an
explicit arm (Number, Str, Bool, List, Tuple, None); the remaining left
variants fall into the `unimplemented!()` catch-all. -/
def eqImplementedLhs : Value → Bool
  | .Number _ => true
  | .Str _ => true
  | .Bool _ => true
  | .List _ => true
  | .Tuple _ => true
  | .None => true
  | _ => false

/-- Whether two values are of the same variant of the tagged union. -/
def sameVariant : Value → Value → Bool
  | .Number _, .Number _ => true
  | .Str _, .Str _ => true
  | .Bool _, .Bool _ => true
  | .List _, .List _ => true
  | .Tuple _, .Tuple _ => true
  | .Function _, .Function _ => true
  | .Class _, .Class _ => true
  | .Object _, .Object _ => true
  | .TextIOWrapper _, .TextIOWrapper _ => true
  | .None, .None => true
  | _, _ => false

/-- The operand pairs for which the ordering operators are defined:
Number-Number, Str-Str and Bool-Bool. -/
def ordDefinedPair : Value → Value → Bool
  | .Number _, .Number _ => true
  | .Str _, .Str _ => true
  | .Bool _, .Bool _ => true
  | _, _ => false

/-- The variants accepted by unary minus: Number and Bool. -/
def negOperand : Value → Bool
  | .Number _ => true
  | .Bool _ => true
  | _ => false

/-- The empty heap, used for concrete instantiations. -/
def stEmpty : State :=
  { lists := fun _ => [], objs := fun _ => [], nextAddr := 0 }

/-- A heap with one object cell at address 0 holding attribute `x`. -/
def stObjX : State :=
  { lists := fun _ => [], objs := fun _ => [("x", Value.None)], nextAddr := 1 }

/-- A heap with one list cell at address 0 holding one element. -/
def stOneList : State :=
  { lists := fun _ => [Value.None], objs := fun _ => [], nextAddr := 1 }

/-- Negating each boolean after pairing it with the heap is the same as
pairing the negated boolean: the bridge between `contained_in` and
`not_contained_in`. -/
theorem except_map_bang (e : RBool) (st : State) :
    Except.map (fun p : Bool × State => (!p.1, p.2))
        (Except.map (fun b => (b, st)) e) =
      Except.map (fun b => (!b, st)) e := by
  cases e <;> rfl

/-- C1 counterexample: a cross-variant comparison whose left operand is a
Function is an `unimplemented!()` error for both `==` and `!=`, so the
comparison is not error-free for every variant on either side. -/
theorem c1_cross_variant_counterexample :
    Value.eq stEmpty 1 (.Function 0) Value.None = .error .unimplemented ∧
    Value.ne stEmpty 1 (.Function 0) Value.None = .error .unimplemented := by
  constructor
  · simp [Value.eq]
  · rfl

/-- C1 (amended): for every pair of Values of different variants whose left
operand is a Number, Str, Bool, List, Tuple or None, `==` returns false and
`!=` returns true, never an error; a cross-variant comparison whose left
operand is a Function, Class, Object or TextIOWrapper instead hits the
`unimplemented!()` catch-all. -/
theorem c1_cross_variant_amended (st : State) (fuel : Nat) (v1 v2 : Value)
    (h1 : eqImplementedLhs v1 = true) (h2 : sameVariant v1 v2 = false) :
    Value.eq st fuel v1 v2 = .ok false ∧ Value.ne st fuel v1 v2 = .ok true := by
  cases v1 <;> cases v2 <;>
    simp_all [eqImplementedLhs, sameVariant, Value.eq, Value.ne]

/-- C1 witness: the amended statement at a concrete cross-variant pair. -/
theorem c1_cross_variant_amended_witness :
    Value.eq stEmpty 0 (.Number (.Integer 1)) Value.None = .ok false ∧
    Value.ne stEmpty 0 (.Number (.Integer 1)) Value.None = .ok true :=
  c1_cross_variant_amended stEmpty 0 (.Number (.Integer 1)) Value.None rfl rfl

/-- C2: calling a Class value allocates a new Object whose attribute table
is initialised as a copy of the class's member table; when the member table
holds an `__init__` entry that entry is called with the new Object
prepended to the positional arguments and the original keyword table, its
return value discarded; and the new Object is returned whether or not
`__init__` exists (on error of the `__init__` call the error propagates,
as the source panic does). -/
theorem c2_class_call_protocol (fenv : FEnv) (tbl : HMap) (args : Args)
    (kwargs : HMap) (st : State) :
    ((st.allocObj tbl).2).objs (st.allocObj tbl).1 = tbl ∧
    Value.call fenv (.Class tbl) args kwargs st =
      (match hmGet tbl "__init__" with
       | some v =>
           Except.map (fun q => (Value.Object (st.allocObj tbl).1, q.2))
             (Value.call fenv v (Value.Object (st.allocObj tbl).1 :: args)
               kwargs (st.allocObj tbl).2)
       | Option.none =>
           .ok (Value.Object (st.allocObj tbl).1, (st.allocObj tbl).2)) := by
  constructor
  · simp [State.allocObj]
  · cases h : hmGet tbl "__init__" with
    | none =>
        simp only [Value.call, h]
        split
        · rename_i v hv
          rw [h] at hv
          cases hv
        · rfl
    | some v =>
        simp only [Value.call, h]
        split
        · rename_i w hw
          rw [h] at hw
          cases hw
          rfl
        · rename_i hw
          rw [h] at hw
          cases hw

/-- C3: unary minus applies the tower negation to a Number, coerces a Bool
to the integer 0 or -1 (negating the 0/1 coercion), and is a fatal error on
every other variant. -/
theorem c3_unary_neg :
    (∀ n : NumericType, Value.neg (.Number n) = .ok (.Number n.neg)) ∧
    (Value.neg (.Bool true) = .ok (.Number (.Integer (-1))) ∧
     Value.neg (.Bool false) = .ok (.Number (.Integer 0))) ∧
    (∀ v : Value, negOperand v = false →
        Value.neg v = .error (.panicked "bad operand type for unary -")) := by
  refine ⟨fun n => rfl, ⟨rfl, rfl⟩, ?_⟩
  intro v h
  cases v <;> simp_all [negOperand, Value.neg]

/-- C3 witness: unary minus at concrete inputs of each class. -/
theorem c3_unary_neg_witness :
    Value.neg (.Str "a") = .error (.panicked "bad operand type for unary -") :=
  c3_unary_neg.2.2 (.Str "a") rfl

/-- C4: `to_bool` maps a Number by the tower's nonzero rule (integer 0 and
float 0.0 false, every other number true), a Str to non-emptiness, a Bool
to itself, a List and a Tuple to the container's non-emptiness, Function,
Class and Object to true, and None to false. -/
theorem c4_to_bool_table (st : State) :
    (∀ i : Int, Value.to_bool st (.Number (.Integer i)) = .ok (i != 0)) ∧
    (∀ q : Rat, Value.to_bool st (.Number (.Float q)) = .ok (q != 0)) ∧
    (∀ s : String, Value.to_bool st (.Str s) = .ok (!s.isEmpty)) ∧
    (∀ b : Bool, Value.to_bool st (.Bool b) = .ok b) ∧
    (∀ a : Nat, Value.to_bool st (.List a) = .ok (!(st.lists a).isEmpty)) ∧
    (∀ t : List Value, Value.to_bool st (.Tuple t) = .ok (!t.isEmpty)) ∧
    (∀ f : Nat, Value.to_bool st (.Function f) = .ok true) ∧
    (∀ tbl : HMap, Value.to_bool st (.Class tbl) = .ok true) ∧
    (∀ a : Nat, Value.to_bool st (.Object a) = .ok true) ∧
    Value.to_bool st Value.None = .ok false :=
  ⟨fun _ => rfl, fun _ => rfl, fun _ => rfl, fun _ => rfl, fun _ => rfl,
   fun _ => rfl, fun _ => rfl, fun _ => rfl, fun _ => rfl, rfl⟩

/-- C5: the ordering operators are defined exactly for Number-Number,
Str-Str and Bool-Bool pairs, delegating to the payload order, and every
other pairing is a fatal, reported error for each of the four operators. -/
theorem c5_ordering_ops :
    (∀ a b : NumericType,
      Value.lt (.Number a) (.Number b) = .ok (NumericType.ltb a b) ∧
      Value.le (.Number a) (.Number b) = .ok (NumericType.leb a b) ∧
      Value.gt (.Number a) (.Number b) = .ok (NumericType.gtb a b) ∧
      Value.ge (.Number a) (.Number b) = .ok (NumericType.geb a b)) ∧
    (∀ a b : String,
      Value.lt (.Str a) (.Str b) = .ok (strLt a b) ∧
      Value.le (.Str a) (.Str b) = .ok (!strLt b a) ∧
      Value.gt (.Str a) (.Str b) = .ok (strLt b a) ∧
      Value.ge (.Str a) (.Str b) = .ok (!strLt a b)) ∧
    (∀ a b : Bool,
      Value.lt (.Bool a) (.Bool b) = .ok (!a && b) ∧
      Value.le (.Bool a) (.Bool b) = .ok (!a || b) ∧
      Value.gt (.Bool a) (.Bool b) = .ok (a && !b) ∧
      Value.ge (.Bool a) (.Bool b) = .ok (a || !b)) ∧
    (∀ v1 v2 : Value, ordDefinedPair v1 v2 = false →
      Value.lt v1 v2 =
        .error (.panicked "operation '<' not supported between these values") ∧
      Value.le v1 v2 =
        .error (.panicked "operation '<=' not supported between these values") ∧
      Value.gt v1 v2 =
        .error (.panicked "operation '>' not supported between these values") ∧
      Value.ge v1 v2 =
        .error (.panicked "operation '>=' not supported between these values")) := by
  refine ⟨fun a b => ⟨rfl, rfl, rfl, rfl⟩, fun a b => ⟨rfl, rfl, rfl, rfl⟩,
    fun a b => ⟨rfl, rfl, rfl, rfl⟩, ?_⟩
  intro v1 v2 h
  cases v1 <;> cases v2 <;>
    simp_all [ordDefinedPair, Value.lt, Value.le, Value.gt, Value.ge]

/-- C5 witness: an ordering operator at a concrete unsupported pair. -/
theorem c5_ordering_ops_witness :
    Value.lt (.Number (.Integer 0)) Value.None =
      .error (.panicked "operation '<' not supported between these values") :=
  (c5_ordering_ops.2.2.2 (.Number (.Integer 0)) Value.None rfl).1

/-- C6: `not_contained_in` is the pointwise boolean negation of
`contained_in` on every input, so on the supported shapes it returns the
negation of the containment result and on the unsupported inputs it fails
with the same fatal error. -/
theorem c6_not_contained_in_negation (x v : Value) (fuel : Nat) (st : State) :
    Value.not_contained_in x v fuel st =
      Except.map (fun p : Bool × State => (!p.1, p.2))
        (Value.contained_in x v fuel st) := by
  cases v with
  | List a =>
      exact (except_map_bang (listContains st fuel x (st.lists a)) st).symm
  | Tuple t => exact (except_map_bang (listContains st fuel x t) st).symm
  | Str s => cases x <;> rfl
  | Number n => rfl
  | Bool b => rfl
  | Function f => rfl
  | Class tbl => rfl
  | Object a => rfl
  | TextIOWrapper hd => rfl
  | None => rfl

/-- C7: attribute access on an Object or Class with a present entry returns
the stored value; a missing entry is a fatal, reported error whose message
names the missing attribute. -/
theorem c7_get_attr_spec (st : State) (a : Nat) (tbl : HMap) (attr : String) :
    (∀ v, hmGet (st.objs a) attr = some v →
        Value.get_attr st (.Object a) attr = .ok v) ∧
    (hmGet (st.objs a) attr = Option.none →
        Value.get_attr st (.Object a) attr =
          .error (.panicked ("object has no attribute '" ++ attr ++ "'"))) ∧
    (∀ v, hmGet tbl attr = some v →
        Value.get_attr st (.Class tbl) attr = .ok v) ∧
    (hmGet tbl attr = Option.none →
        Value.get_attr st (.Class tbl) attr =
          .error (.panicked ("class has no attribute '" ++ attr ++ "'"))) := by
  refine ⟨fun v h => ?_, fun h => ?_, fun v h => ?_, fun h => ?_⟩ <;>
    simp [Value.get_attr, h]

/-- C7 witness: attribute access at a concrete object heap, one present
entry and one missing entry. -/
theorem c7_get_attr_witness :
    Value.get_attr stObjX (.Object 0) "x" = .ok Value.None ∧
    Value.get_attr stObjX (.Object 0) "y" =
      .error (.panicked "object has no attribute 'y'") :=
  ⟨(c7_get_attr_spec stObjX 0 [] "x").1 Value.None rfl,
   (c7_get_attr_spec stObjX 0 [] "y").2.1 rfl⟩

/-- C8: the debug rendering and the human-facing rendering agree on every
value, including producing the same fatal error on an Object or Class whose
table has no `__name__` entry. -/
theorem c8_debug_eq_display (pr : PtrRender) (st : State) (fuel : Nat)
    (v : Value) : fmtValueDebug pr st fuel v = fmtValue pr st fuel v := by
  cases v <;> (conv_rhs => rw [fmtValue.eq_def]) <;> rfl

/-- C9: for every pair whose left operand is a Number, Str, Bool, List,
Tuple or None, the hand-written `ne` is the boolean negation of `eq`: it
returns true exactly when `eq` returns false, and it fails exactly when
`eq` fails, with the same error. -/
theorem c9_ne_consistent_with_eq (st : State) (fuel : Nat) (v1 v2 : Value)
    (h : eqImplementedLhs v1 = true) :
    Value.ne st fuel v1 v2 =
      Except.map (fun b => !b) (Value.eq st fuel v1 v2) := by
  cases v1 <;> cases v2 <;> (try cases fuel) <;>
    simp_all [eqImplementedLhs, Value.ne, Value.eq, Except.map]

/-- C9 witness: the negation relation at a concrete same-variant pair. -/
theorem c9_ne_consistent_witness :
    Value.ne stEmpty 0 (.Str "a") (.Str "b") =
      Except.map (fun b => !b) (Value.eq stEmpty 0 (.Str "a") (.Str "b")) :=
  c9_ne_consistent_with_eq stEmpty 0 (.Str "a") (.Str "b") rfl

/-- C10: the read-only sequence operations on a List value leave every
previously allocated list cell unchanged, so every alias of the List
observes the same contents after the operation as before (slicing may
allocate a fresh cell but touches no live one; the other operations return
the heap unchanged). -/
theorem c10_list_read_ops_frame (a : Nat) (idx x : Value)
    (lower upper step : Option Value) (fuel : Nat) (st : State) :
    (∀ r st', Value.index (.List a) idx st = .ok (r, st') →
        ∀ b, b < st.nextAddr → st'.lists b = st.lists b) ∧
    (∀ r st', Value.slice (.List a) lower upper step st = .ok (r, st') →
        ∀ b, b < st.nextAddr → st'.lists b = st.lists b) ∧
    (∀ r st', Value.contained_in x (.List a) fuel st = .ok (r, st') →
        ∀ b, b < st.nextAddr → st'.lists b = st.lists b) ∧
    (∀ r st', Value.not_contained_in x (.List a) fuel st = .ok (r, st') →
        ∀ b, b < st.nextAddr → st'.lists b = st.lists b) ∧
    (∀ r st', Value.clone_seq (.List a) st = .ok (r, st') →
        ∀ b, b < st.nextAddr → st'.lists b = st.lists b) := by
  refine ⟨?_, ?_, ?_, ?_, ?_⟩
  · intro r st' h b hb
    cases hs : seqIndex (st.lists a) idx with
    | ok w =>
        simp only [Value.index, hs, Except.map] at h
        cases h
        rfl
    | error e => simp [Value.index, hs, Except.map] at h
  · intro r st' h b hb
    cases hs : seqSlice (st.lists a) lower upper step with
    | ok w =>
        simp only [Value.slice, hs] at h
        cases h
        simp only [State.allocList]
        rw [if_neg (by omega)]
    | error e => simp [Value.slice, hs] at h
  · intro r st' h b hb
    cases hs : listContains st fuel x (st.lists a) with
    | ok w =>
        simp only [Value.contained_in, hs, Except.map] at h
        cases h
        rfl
    | error e => simp [Value.contained_in, hs, Except.map] at h
  · intro r st' h b hb
    cases hs : listContains st fuel x (st.lists a) with
    | ok w =>
        simp only [Value.not_contained_in, hs, Except.map] at h
        cases h
        rfl
    | error e => simp [Value.not_contained_in, hs, Except.map] at h
  · intro r st' h b hb
    simp only [Value.clone_seq] at h
    cases h
    rfl

/-- C10 witness: a read operation on a concrete one-list heap, with the
frame conclusion at the cell the List aliases. -/
theorem c10_list_read_ops_frame_witness :
    Value.clone_seq (.List 0) stOneList = .ok ([Value.None], stOneList) ∧
    stOneList.lists 0 = stOneList.lists 0 :=
  ⟨rfl,
   (c10_list_read_ops_frame 0 Value.None Value.None Option.none Option.none
       Option.none 0 stOneList).2.2.2.2 [Value.None] stOneList rfl 0
     (by decide)⟩

end Cannolib
